import Mathlib

/-!
Shallow embedding of `singularityspawner/singularityspawner.py`
(`SingularitySpawner`, a subclass of jupyterhub's `LocalProcessSpawner`).

Python runtime values that flow through the spawner's option dictionaries are
modelled by `PyVal`; the spawner's traitlets configuration by `SpawnerConfig`;
an instance's relevant attributes (`self.config`, `self.user`,
`self.user_options`) by `SpawnerState`.  Methods become Lean functions on
`SpawnerState`.  The external singularity CLI pull (`Singularity().pull`) is
an oracle parameter `pull : String → String → Except String String`; external
side effects (pull invocations, process creation by the parent class's
`start`) are recorded in an `Event` trace.  Python exceptions are modelled
with `Except String`.
-/

namespace SingularitySpawnerModel

/-- The Python values stored in form data / user-options dictionaries here:
`None`, booleans, strings and lists of strings (tornado form values are lists
of strings). -/
inductive PyVal where
  | pnone : PyVal
  | pbool : Bool → PyVal
  | pstr : String → PyVal
  | plist : List String → PyVal
deriving DecidableEq

/-- Python truthiness for the values above: `None` and `False` are falsy, a
string or list is truthy iff non-empty. -/
def truthy : PyVal → Bool
  | .pnone => false
  | .pbool b => b
  | .pstr s => !s.isEmpty
  | .plist xs => !xs.isEmpty

/-- A Python dictionary with string keys, as an association list (first
binding wins, as after literal construction each key appears once). -/
def Dict := List (String × PyVal)

/-- `d.get(k, dflt)`: the stored value when the key is present, else the
default. -/
def dictGet (d : Dict) (k : String) (dflt : PyVal) : PyVal :=
  match d.find? (fun kv => kv.1 == k) with
  | some kv => kv.2
  | none => dflt

/-- Tornado form data: each field name maps to the list of submitted string
values. -/
def FormData := List (String × List String)

/-- `form_data.get(k, None)` returning `none` when the field is absent. -/
def formGet (fd : FormData) (k : String) : Option (List String) :=
  match fd.find? (fun kv => kv.1 == k) with
  | some kv => some kv.2
  | none => none

/-- The spawner's traitlets configuration (class traits tagged `config=True`). -/
structure SpawnerConfig where
  singularity_cmd : List String
  notebook_cmd : List String
  default_image_path : String
  default_image_url : String
  pull_from_url : Bool
deriving DecidableEq

/-- The trait default values declared on the class. -/
def defaultConfig : SpawnerConfig :=
  { singularity_cmd := ["/usr/local/bin/singularity", "exec"]
    notebook_cmd := ["jupyterhub-singleuser"]
    default_image_path := ""
    default_image_url := "docker://jupyter/base-notebook"
    pull_from_url := false }

/-- Hex digit characters used by percent-encoding (`%02X`). -/
def hexDigit : Nat → Char
  | 0 => '0'
  | 1 => '1'
  | 2 => '2'
  | 3 => '3'
  | 4 => '4'
  | 5 => '5'
  | 6 => '6'
  | 7 => '7'
  | 8 => '8'
  | 9 => '9'
  | 10 => 'A'
  | 11 => 'B'
  | 12 => 'C'
  | 13 => 'D'
  | 14 => 'E'
  | 15 => 'F'
  | _ => 'X'

/-- UTF-8 encoding of a Unicode code point, as its list of byte values. -/
def utf8Bytes (n : Nat) : List Nat :=
  if n < 0x80 then [n]
  else if n < 0x800 then
    [0xC0 + n / 0x40, 0x80 + n % 0x40]
  else if n < 0x10000 then
    [0xE0 + n / 0x1000, 0x80 + n / 0x40 % 0x40, 0x80 + n % 0x40]
  else
    [0xF0 + n / 0x40000, 0x80 + n / 0x1000 % 0x40, 0x80 + n / 0x40 % 0x40,
      0x80 + n % 0x40]

/-- Percent-encode a byte sequence: each byte becomes `%` and two hex digits. -/
def pctBytes : List Nat → List Char
  | [] => []
  | b :: bs => '%' :: hexDigit (b / 16) :: hexDigit (b % 16) :: pctBytes bs

/-- Characters `urllib.parse.quote(name, safe=...)` leaves unquoted with
`safe` set to `@`: ASCII letters and digits, `_ . - ~`, and `@`. -/
def isSafeChar (c : Char) : Bool :=
  c.isAlphanum || c == '_' || c == '.' || c == '-' || c == '~' || c == '@'

/-- Quote one character: kept if safe, else its UTF-8 bytes percent-encoded. -/
def quoteChar (c : Char) : List Char :=
  if isSafeChar c then [c] else pctBytes (utf8Bytes c.toNat)

/-- Quote every character of a string's character list. -/
def escapeChars : List Char → List Char
  | [] => []
  | c :: cs => quoteChar c ++ escapeChars cs

/-- `user.escaped_name` of the jupyterhub `User` object the spawner holds:
`urllib.parse.quote(self.name, safe='@')`.  This attribute lives in the
jupyterhub dependency; it is embedded here because
`format_default_image_path` substitutes it into the path template. -/
def escapedName (s : String) : String :=
  ⟨escapeChars s.data⟩

/-- The `{username}` field pattern of the path template, as characters. -/
def usernamePat : List Char :=
  ['{', 'u', 's', 'e', 'r', 'n', 'a', 'm', 'e', '}']

/-- `template.format(username=u)`: replace each occurrence of the
`{username}` field with `u`, keeping all other characters. -/
def substUsername (u : List Char) : List Char → List Char
  | [] => []
  | c :: cs =>
    if usernamePat.isPrefixOf (c :: cs) then
      u ++ substUsername u ((c :: cs).drop usernamePat.length)
    else
      c :: substUsername u cs
termination_by l => l.length
decreasing_by
  · simp only [usernamePat, List.length_drop, List.length_cons, List.length_nil]
    omega
  · simp

/-- Relevant attributes of one spawner instance: its configuration, the
requesting user's name, and `self.user_options`. -/
structure SpawnerState where
  config : SpawnerConfig
  user_name : String
  user_options : Dict

/-- `format_default_image_path`: format the `default_image_path` template
with `username=self.user.escaped_name`. -/
def format_default_image_path (st : SpawnerState) : String :=
  ⟨substUsername (escapedName st.user_name).data st.config.default_image_path.data⟩

/-- `options_from_form`: read the three form fields (`.get` with `None` or
`False` defaults) and return a dict that always carries all three keys. -/
def options_from_form (fd : FormData) : Dict :=
  [("user_image_path",
      match formGet fd "user_image_path" with
      | some xs => PyVal.plist xs
      | none => PyVal.pnone),
    ("user_image_url",
      match formGet fd "user_image_url" with
      | some xs => PyVal.plist xs
      | none => PyVal.pnone),
    ("pull_from_url",
      match formGet fd "pull_from_url" with
      | some xs => PyVal.plist xs
      | none => PyVal.pbool false)]

/-- `get_image_url`: the user option if the key is present, else the
one-element list holding the configured default URL. -/
def get_image_url (st : SpawnerState) : PyVal :=
  dictGet st.user_options "user_image_url" (.plist [st.config.default_image_url])

/-- `get_image_path`: the user option if the key is present, else the
one-element list holding the formatted default path. -/
def get_image_path (st : SpawnerState) : PyVal :=
  dictGet st.user_options "user_image_path" (.plist [format_default_image_path st])

/-- Externally observable side effects of one spawner operation:
an invocation of the external `Singularity().pull` (with the url and
destination arguments and whether it succeeded), and the creation of the
child process by the inherited `LocalProcessSpawner.start` (with its full
argument vector). -/
inductive Event where
  | pulled : String → String → Bool → Event
  | launched : List String → Event
deriving DecidableEq

/-- Python subscripting `v[0]` on the option values: first element of a
list, first character of a string; `IndexError` when empty, `TypeError`
on `None`/booleans. -/
def pyIndex0 : PyVal → Except String String
  | .plist (x :: _) => .ok x
  | .plist [] => .error "IndexError"
  | .pstr s =>
    match s.data with
    | [] => .error "IndexError"
    | c :: _ => .ok ⟨[c]⟩
  | .pnone => .error "TypeError"
  | .pbool _ => .error "TypeError"

/-- Whether an `Except` result is a success. -/
def exceptOk : Except String String → Bool
  | .ok _ => true
  | .error _ => false

/-- `pull_image(image_url)`: recompute the image path, then invoke the
external `s.pull(image_url[0], image_name=image_path[0])`.  The result is the
returned container path or the raised exception, paired with the trace of
external pull invocations (empty when subscripting raises first).  The
external pull is the oracle `pull`. -/
def pull_image (pull : String → String → Except String String)
    (st : SpawnerState) (image_url : PyVal) :
    Except String String × List Event :=
  match pyIndex0 image_url with
  | .error e => (.error e, [])
  | .ok u =>
    match pyIndex0 (get_image_path st) with
    | .error e => (.error e, [])
    | .ok p =>
      match pull u p with
      | .ok container_path => (.ok container_path, [.pulled u p true])
      | .error e => (.error e, [.pulled u p false])

/-- `_build_cmd`: `cmd = [] ; cmd.extend(singularity_cmd) ;
cmd.extend(image_path) ; cmd.extend(notebook_cmd)`.  `list.extend` over a
list of strings appends its elements; over a string it appends its
characters as one-character strings; over `None` or a boolean it raises
`TypeError`. -/
def _build_cmd (st : SpawnerState) : Except String (List String) :=
  match get_image_path st with
  | .plist xs => .ok (st.config.singularity_cmd ++ xs ++ st.config.notebook_cmd)
  | .pstr s =>
    .ok (st.config.singularity_cmd ++ s.data.map (fun c => (⟨[c]⟩ : String))
      ++ st.config.notebook_cmd)
  | .pnone => .error "TypeError"
  | .pbool _ => .error "TypeError"

/-- The full argument vector the inherited `LocalProcessSpawner.start`
launches: it concatenates `self.cmd` (the `cmd` property, i.e. `_build_cmd`)
with the extra arguments `self.get_args()`. -/
def launch_cmd (st : SpawnerState) (args : List String) :
    Except String (List String) :=
  (_build_cmd st).map (fun c => c ++ args)

/-- `start`: read the image path and the `pull_from_url` option; when the
latter is truthy, call `self.pull_image(image_url)` WITHOUT yielding it —
the `gen.coroutine` body runs synchronously and its result or exception is
captured in the discarded future, so neither is observed by `start`; then
delegate to `super().start()`, which builds `self.cmd + self.get_args()` and
creates the child process.  Returns the outcome paired with the event
trace. -/
def start (pull : String → String → Except String String)
    (st : SpawnerState) (args : List String) :
    Except String Unit × List Event :=
  let _image_path := get_image_path st
  let pull_from_url := dictGet st.user_options "pull_from_url" (.pbool false)
  let pullEvents :=
    if truthy pull_from_url then
      (pull_image pull st (get_image_url st)).2
    else []
  match launch_cmd st args with
  | .error e => (.error e, pullEvents)
  | .ok c => (.ok (), pullEvents ++ [.launched c])

/-- `n` callers each running `pull_image` on the same state and url (the
spawner holds no pull registry, so the calls are independent): the
concatenation of their external-pull traces. -/
def callersEvents (pull : String → String → Except String String)
    (st : SpawnerState) (image_url : PyVal) (n : Nat) : List Event :=
  (List.replicate n (pull_image pull st image_url).2).flatten

/-- State-threaded reading of `get_image_path`: the attribute reads perform
no assignment, so the instance state is returned unchanged. -/
def get_image_path_st (st : SpawnerState) : PyVal × SpawnerState :=
  (get_image_path st, st)

/-- State-threaded `_build_cmd`: builds the list from the threaded reads and
returns the resulting instance state. -/
def _build_cmd_st (st : SpawnerState) :
    Except String (List String) × SpawnerState :=
  let (ip, st1) := get_image_path_st st
  (match ip with
    | .plist xs => .ok (st1.config.singularity_cmd ++ xs ++ st1.config.notebook_cmd)
    | .pstr s =>
      .ok (st1.config.singularity_cmd ++ s.data.map (fun c => (⟨[c]⟩ : String))
        ++ st1.config.notebook_cmd)
    | .pnone => .error "TypeError"
    | .pbool _ => .error "TypeError", st1)

/-- The `cmd` property: `return self._build_cmd()`, threading the instance
state. -/
def cmd_st (st : SpawnerState) : Except String (List String) × SpawnerState :=
  _build_cmd_st st

/-- A pull oracle that always succeeds, returning the destination path. -/
def pullOk : String → String → Except String String :=
  fun _ dest => .ok dest

/-- A pull oracle that always fails (a simulated external pull failure). -/
def pullFail : String → String → Except String String :=
  fun _ _ => .error "pull failed"

/-- Sample state: user `bob` submitted the form with the pull box checked,
a remote reference `docker://x/y` and image path `/images/bob.img`. -/
def stBob : SpawnerState :=
  { config := defaultConfig
    user_name := "bob"
    user_options := options_from_form
      [("user_image_path", ["/images/bob.img"]),
        ("user_image_url", ["docker://x/y"]),
        ("pull_from_url", ["pull"])] }

/-- Sample state: user `carol` requested a pull of `docker://x/y` to
`/images/carol.img` (used to exhibit the ordering of pull and launch). -/
def stCarol : SpawnerState :=
  { config := defaultConfig
    user_name := "carol"
    user_options := options_from_form
      [("user_image_path", ["/images/carol.img"]),
        ("user_image_url", ["docker://x/y"]),
        ("pull_from_url", ["pull"])] }

/-- Sample state: two callers share the reference `docker://shared` and the
path `/images/shared.img`. -/
def stShared : SpawnerState :=
  { config := defaultConfig
    user_name := "dave"
    user_options := options_from_form
      [("user_image_path", ["/images/shared.img"]),
        ("user_image_url", ["docker://shared"]),
        ("pull_from_url", ["pull"])] }

/-- Sample state: no user options and an unconfigured (empty) default image
path, as the traits default to. -/
def stDefault : SpawnerState :=
  { config := defaultConfig
    user_name := "alice"
    user_options := [] }

/-- Sample state: user `alice` with no pull, image `/images/base.sif`. -/
def stAlice : SpawnerState :=
  { config := defaultConfig
    user_name := "alice"
    user_options := options_from_form
      [("user_image_path", ["/images/base.sif"])] }

/-- Sample state: user `eve` requested a pull of `docker://eve/img` to
`/images/eve.img` (used for repeated `pull_image` calls). -/
def stEve : SpawnerState :=
  { config := defaultConfig
    user_name := "eve"
    user_options := options_from_form
      [("user_image_path", ["/images/eve.img"]),
        ("user_image_url", ["docker://eve/img"]),
        ("pull_from_url", ["pull"])] }

/-- Sample state: user `frank` requested a pull of `docker://f/img` to
`/images/frank.img` (used to relate pull destination and exec command). -/
def stFrank : SpawnerState :=
  { config := defaultConfig
    user_name := "frank"
    user_options := options_from_form
      [("user_image_path", ["/images/frank.img"]),
        ("user_image_url", ["docker://f/img"]),
        ("pull_from_url", ["pull"])] }

/-! ## Helper lemmas -/

/-- No hex digit character is a path separator. -/
theorem hexDigit_ne_slash (n : Nat) : hexDigit n ≠ '/' := by
  rw [hexDigit.eq_def]
  split <;> decide

/-- Percent-encoded byte sequences contain no path separator. -/
theorem slash_not_mem_pctBytes (bs : List Nat) : '/' ∉ pctBytes bs := by
  induction bs with
  | nil => simp [pctBytes]
  | cons b bs ih =>
    intro h
    simp only [pctBytes, List.mem_cons] at h
    rcases h with h | h | h | h
    · exact absurd h (by decide)
    · exact hexDigit_ne_slash _ h.symm
    · exact hexDigit_ne_slash _ h.symm
    · exact ih h

/-- Quoting a character never produces a path separator: `/` is not a safe
character, so it is always percent-encoded. -/
theorem slash_not_mem_quoteChar (c : Char) : '/' ∉ quoteChar c := by
  unfold quoteChar
  split
  case isTrue h =>
    intro hm
    simp only [List.mem_singleton] at hm
    rw [← hm] at h
    exact absurd h (by decide)
  case isFalse h => exact slash_not_mem_pctBytes _

/-- The escaped form of any character list contains no path separator. -/
theorem slash_not_mem_escapeChars (l : List Char) : '/' ∉ escapeChars l := by
  induction l with
  | nil => simp [escapeChars]
  | cons c cs ih =>
    intro h
    simp only [escapeChars] at h
    rcases List.mem_append.mp h with h | h
    · exact slash_not_mem_quoteChar c h
    · exact ih h

/-- Substituting two separator-free tokens into the same template yields
the same number of separators. -/
theorem count_slash_substUsername (u v : List Char)
    (hu : u.count '/' = 0) (hv : v.count '/' = 0) :
    ∀ t : List Char,
      (substUsername u t).count '/' = (substUsername v t).count '/' := by
  intro t
  induction t using substUsername.induct (u := u) with
  | case1 => simp [substUsername]
  | case2 c cs h ih =>
    rw [substUsername, substUsername, if_pos h, if_pos h]
    simp only [List.count_append, hu, hv, ih]
  | case3 c cs h ih =>
    rw [substUsername, substUsername, if_neg h, if_neg h]
    simp only [List.count_cons, ih]

/-- Each `pull_image` call whose subscripting succeeds performs exactly one
external pull invocation, recording its url, destination and outcome. -/
theorem pull_image_single_event
    (pull : String → String → Except String String)
    (st : SpawnerState) (url : PyVal) (u p : String)
    (hu : pyIndex0 url = .ok u)
    (hp : pyIndex0 (get_image_path st) = .ok p) :
    (pull_image pull st url).2 = [.pulled u p (exceptOk (pull u p))] := by
  unfold pull_image
  rw [hu, hp]
  cases hpull : pull u p with
  | ok cp => simp [hpull, exceptOk]
  | error e => simp [hpull, exceptOk]

/-- Flattening `n` copies of a one-element trace yields `n` events. -/
theorem flatten_replicate_singleton (e : Event) (n : Nat) :
    ((List.replicate n [e]).flatten).length = n := by
  induction n with
  | zero => rfl
  | succ n ih => simp [List.replicate_succ, List.flatten_cons, ih]

/-! ## Claims -/

/-- C1, counterexample: for the concrete request of user `carol` with the
pull flag set and a failing external pull, the trace of `start` records a
`Failed` pull followed by the creation of the child process: launch begins
against a Failed pull, contrary to the claim. -/
theorem c1_launch_after_failed_pull_cex :
    (start pullFail stCarol []).2
      = [.pulled "docker://x/y" "/images/carol.img" false,
          .launched ["/usr/local/bin/singularity", "exec", "/images/carol.img",
            "jupyterhub-singleuser"]] := by
  rfl

/-- C1 (amended): for every spawn request with the pull flag set (and
subscriptable url and path options), the pull reaches its terminal outcome —
Done or Failed — before process launch begins, because the unyielded
coroutine body runs synchronously; but launch then begins regardless of that
outcome, a Failed pull included, since the result is captured in a discarded
future. -/
theorem c1_pull_terminal_before_launch_amended
    (pull : String → String → Except String String)
    (st : SpawnerState) (args : List String) (u p : String) (ps : List String)
    (hflag : truthy (dictGet st.user_options "pull_from_url" (.pbool false)) = true)
    (hurl : pyIndex0 (get_image_url st) = .ok u)
    (hpath : get_image_path st = .plist (p :: ps)) :
    start pull st args
      = (.ok (), [.pulled u p (exceptOk (pull u p)),
          .launched (st.config.singularity_cmd ++ (p :: ps)
            ++ st.config.notebook_cmd ++ args)]) := by
  have hp : pyIndex0 (get_image_path st) = .ok p := by rw [hpath]; rfl
  have hev := pull_image_single_event pull st (get_image_url st) u p hurl hp
  simp [start, launch_cmd, _build_cmd, hflag, hpath, hev, Except.map]

/-- C1 witness: the amended theorem at user `carol` with a succeeding
pull. -/
theorem c1_pull_terminal_before_launch_witness :
    start pullOk stCarol []
      = (.ok (), [.pulled "docker://x/y" "/images/carol.img" true,
          .launched ["/usr/local/bin/singularity", "exec", "/images/carol.img",
            "jupyterhub-singleuser"]]) :=
  c1_pull_terminal_before_launch_amended pullOk stCarol []
    "docker://x/y" "/images/carol.img" [] (by rfl) (by rfl) (by rfl)

/-- C2, counterexample: for user `bob` with the pull flag set and a simulated
pull failure, `start` succeeds (no `PullError` is returned) and the child
process is still created. -/
theorem c2_pull_error_not_returned_cex :
    (start pullFail stBob []).1 = .ok ()
      ∧ (start pullFail stBob []).2
        = [.pulled "docker://x/y" "/images/bob.img" false,
            .launched ["/usr/local/bin/singularity", "exec", "/images/bob.img",
              "jupyterhub-singleuser"]] :=
  ⟨rfl, rfl⟩

/-- C2 (amended): for every spawn request with the pull flag set whose
external pull fails, `start` does NOT return the pull error — the unyielded
coroutine swallows it into a discarded future — and the child process is
still created. -/
theorem c2_pull_error_swallowed_amended
    (pull : String → String → Except String String)
    (st : SpawnerState) (args : List String) (u p e : String) (ps : List String)
    (hflag : truthy (dictGet st.user_options "pull_from_url" (.pbool false)) = true)
    (hurl : pyIndex0 (get_image_url st) = .ok u)
    (hpath : get_image_path st = .plist (p :: ps))
    (hfail : pull u p = .error e) :
    (start pull st args).1 = .ok ()
      ∧ .pulled u p false ∈ (start pull st args).2
      ∧ .launched (st.config.singularity_cmd ++ (p :: ps)
          ++ st.config.notebook_cmd ++ args) ∈ (start pull st args).2 := by
  have hp : pyIndex0 (get_image_path st) = .ok p := by rw [hpath]; rfl
  have hev := pull_image_single_event pull st (get_image_url st) u p hurl hp
  have hok : exceptOk (pull u p) = false := by rw [hfail]; rfl
  rw [hok] at hev
  simp [start, launch_cmd, _build_cmd, hflag, hpath, hev, Except.map]

/-- C2 witness: the amended theorem at user `bob` with the failing pull. -/
theorem c2_pull_error_swallowed_witness :
    (start pullFail stBob []).1 = .ok ()
      ∧ .pulled "docker://x/y" "/images/bob.img" false ∈ (start pullFail stBob []).2
      ∧ .launched (stBob.config.singularity_cmd ++ ["/images/bob.img"]
          ++ stBob.config.notebook_cmd ++ []) ∈ (start pullFail stBob []).2 :=
  c2_pull_error_swallowed_amended pullFail stBob []
    "docker://x/y" "/images/bob.img" "pull failed" []
    (by rfl) (by rfl) (by rfl) (by rfl)

/-- C3 (confirmed): for every resolved image path, configuration and
extra-argument list, the launched command is exactly the runtime-exec prefix,
the image path, the inner server command, then the extra arguments, as a
discrete argument vector (`_build_cmd` produces the first three segments and
the inherited `start` appends `get_args()`). -/
theorem c3_cmd_segment_order
    (st : SpawnerState) (args : List String) (p : String)
    (h : get_image_path st = .plist [p]) :
    launch_cmd st args
      = .ok (st.config.singularity_cmd ++ [p]
          ++ st.config.notebook_cmd ++ args) := by
  unfold launch_cmd _build_cmd
  rw [h]
  rfl

/-- C3 witness: user `alice` with image `/images/base.sif`. -/
theorem c3_cmd_segment_order_witness :
    launch_cmd stAlice []
      = .ok (stAlice.config.singularity_cmd ++ ["/images/base.sif"]
          ++ stAlice.config.notebook_cmd ++ []) :=
  c3_cmd_segment_order stAlice [] "/images/base.sif" (by rfl)

/-- C4, counterexample: a first `pull_image` call for user `eve` succeeds,
yet a second identical call still records an external pull invocation — two
invocations in total, where the claim requires the second call to re-use the
cached result. -/
theorem c4_second_call_repulls_cex :
    (pull_image pullOk stEve (get_image_url stEve)).1 = .ok "/images/eve.img"
      ∧ ((pull_image pullOk stEve (get_image_url stEve)).2
          ++ (pull_image pullOk stEve (get_image_url stEve)).2).length = 2 :=
  ⟨rfl, rfl⟩

/-- C4 (amended): `pull_image` keeps no registry or cache — every call whose
subscripting succeeds invokes the external pull exactly once, so a second
call after a prior success re-invokes it rather than returning a cached
path. -/
theorem c4_no_pull_caching_amended
    (pull : String → String → Except String String)
    (st : SpawnerState) (url : PyVal) (u p : String)
    (hu : pyIndex0 url = .ok u)
    (hp : pyIndex0 (get_image_path st) = .ok p)
    (hok : exceptOk (pull u p) = true) :
    ((pull_image pull st url).2 ++ (pull_image pull st url).2)
      = [.pulled u p true, .pulled u p true] := by
  rw [pull_image_single_event pull st url u p hu hp, hok]
  rfl

/-- C4 witness: two successive successful calls for user `eve`. -/
theorem c4_no_pull_caching_witness :
    ((pull_image pullOk stEve (get_image_url stEve)).2
        ++ (pull_image pullOk stEve (get_image_url stEve)).2)
      = [.pulled "docker://eve/img" "/images/eve.img" true,
          .pulled "docker://eve/img" "/images/eve.img" true] :=
  c4_no_pull_caching_amended pullOk stEve (get_image_url stEve)
    "docker://eve/img" "/images/eve.img" (by rfl) (by rfl) (by rfl)

/-- C5, counterexample: with no user options and the default (empty)
configured path template, resolution returns the singleton of the empty
string — an empty local path — and raises nothing: no
`InvalidReferenceError` exists in the code. -/
theorem c5_empty_path_no_error_cex :
    get_image_path stDefault = .plist [""] ∧ "".isEmpty = true := by
  constructor
  · simp [get_image_path, dictGet, stDefault, format_default_image_path,
      defaultConfig, substUsername]
  · rfl

/-- C5 (amended): resolution is total and never signals an error: when the
`user_image_path` key is absent from the user options, `get_image_path`
returns the singleton list of the formatted configured default, which under
the default configuration is the empty string rather than a failure. -/
theorem c5_resolution_total_amended
    (st : SpawnerState)
    (h : st.user_options.find? (fun kv => kv.1 == "user_image_path") = none) :
    get_image_path st = .plist [format_default_image_path st] := by
  unfold get_image_path dictGet
  rw [h]

/-- C5 witness: the default-configured state with empty user options. -/
theorem c5_resolution_total_witness :
    get_image_path stDefault = .plist [format_default_image_path stDefault] :=
  c5_resolution_total_amended stDefault (by rfl)

/-- C6 (confirmed): the user identifier is sanitized (percent-encoded with
`urllib.parse.quote`, `safe='@'`) before substitution into the path
template, so for every configuration and any two user identifiers — path
separators included — the resolved default path contains exactly the same
number of `/` characters: the user identity injects none. -/
theorem c6_no_separator_from_user
    (cfg : SpawnerConfig) (opts : Dict) (n₁ n₂ : String) :
    ((format_default_image_path ⟨cfg, n₁, opts⟩).data.count '/')
      = ((format_default_image_path ⟨cfg, n₂, opts⟩).data.count '/') := by
  unfold format_default_image_path
  exact count_slash_substUsername _ _
    (List.count_eq_zero.mpr (slash_not_mem_escapeChars _))
    (List.count_eq_zero.mpr (slash_not_mem_escapeChars _))
    cfg.default_image_path.data

/-- C7, counterexample: two callers requesting the pull of
`docker://shared` invoke the external pull twice, not exactly once as the
claim's scenario requires. -/
theorem c7_two_callers_two_pulls_cex :
    (callersEvents pullOk stShared (get_image_url stShared) 2).length = 2
      ∧ (callersEvents pullOk stShared (get_image_url stShared) 2).length ≠ 1 := by
  constructor
  · rfl
  · decide

/-- C7 (amended): there is no pull deduplication or retry bound — `n`
callers requesting the same reference invoke the external pull exactly `n`
times, once per caller, the spawner holding no shared pull registry. -/
theorem c7_no_pull_dedup_amended
    (pull : String → String → Except String String)
    (st : SpawnerState) (url : PyVal) (u p : String) (n : Nat)
    (hu : pyIndex0 url = .ok u)
    (hp : pyIndex0 (get_image_path st) = .ok p) :
    (callersEvents pull st url n).length = n := by
  unfold callersEvents
  rw [pull_image_single_event pull st url u p hu hp]
  exact flatten_replicate_singleton _ n

/-- C7 witness: three callers of the shared reference invoke the pull three
times. -/
theorem c7_no_pull_dedup_witness :
    (callersEvents pullOk stShared (get_image_url stShared) 3).length = 3 :=
  c7_no_pull_dedup_amended pullOk stShared (get_image_url stShared)
    "docker://shared" "/images/shared.img" 3 (by rfl) (by rfl)

/-- C8 (confirmed): `options_from_form` always inserts all three keys, and
since `dict.get` falls back only when a key is entirely absent, a request
that went through the form never reads the configured defaults: the
resolved path and url are independent of the configuration and of the user
identity feeding the default template. -/
theorem c8_form_shadows_defaults
    (fd : FormData) (cfg cfg' : SpawnerConfig) (n n' : String) :
    (((options_from_form fd).find? (fun kv => kv.1 == "user_image_path")).isSome = true
        ∧ ((options_from_form fd).find? (fun kv => kv.1 == "user_image_url")).isSome = true
        ∧ ((options_from_form fd).find? (fun kv => kv.1 == "pull_from_url")).isSome = true)
      ∧ get_image_path ⟨cfg, n, options_from_form fd⟩
          = get_image_path ⟨cfg', n', options_from_form fd⟩
      ∧ get_image_url ⟨cfg, n, options_from_form fd⟩
          = get_image_url ⟨cfg', n', options_from_form fd⟩ :=
  ⟨⟨rfl, rfl, rfl⟩, rfl, rfl⟩

/-- C9 (confirmed): for every pull request whose url subscripting succeeds
and whose resolved image path is a non-empty list, the destination handed to
the external pull is exactly the first element of the resolved path, and the
built exec command places that very element right after the runtime-exec
prefix. -/
theorem c9_pull_dest_matches_cmd
    (pull : String → String → Except String String)
    (st : SpawnerState) (url : PyVal) (u p : String) (ps : List String)
    (hu : pyIndex0 url = .ok u)
    (hpath : get_image_path st = .plist (p :: ps)) :
    (pull_image pull st url).2 = [.pulled u p (exceptOk (pull u p))]
      ∧ _build_cmd st
        = .ok (st.config.singularity_cmd ++ (p :: ps) ++ st.config.notebook_cmd)
      ∧ (st.config.singularity_cmd ++ (p :: ps)
          ++ st.config.notebook_cmd)[st.config.singularity_cmd.length]? = some p := by
  refine ⟨pull_image_single_event pull st url u p hu (by rw [hpath]; rfl), ?_, ?_⟩
  · unfold _build_cmd
    rw [hpath]
  · rw [List.append_assoc, List.getElem?_append_right (le_refl _)]
    simp

/-- C9 witness: user `frank` pulling `docker://f/img` to
`/images/frank.img`. -/
theorem c9_pull_dest_matches_cmd_witness :
    (pull_image pullOk stFrank (get_image_url stFrank)).2
        = [.pulled "docker://f/img" "/images/frank.img" true]
      ∧ _build_cmd stFrank
        = .ok (stFrank.config.singularity_cmd ++ ["/images/frank.img"]
            ++ stFrank.config.notebook_cmd)
      ∧ (stFrank.config.singularity_cmd ++ ["/images/frank.img"]
          ++ stFrank.config.notebook_cmd)[stFrank.config.singularity_cmd.length]?
        = some "/images/frank.img" :=
  c9_pull_dest_matches_cmd pullOk stFrank (get_image_url stFrank)
    "docker://f/img" "/images/frank.img" [] (by rfl) (by rfl)

/-- C10 (confirmed): reading the `cmd` property is deterministic and
side-effect free — it leaves the instance state (configuration, user, user
options) unchanged, a second read returns the same argument list, and the
value is exactly `_build_cmd` of the state. -/
theorem c10_cmd_pure_deterministic (st : SpawnerState) :
    (cmd_st st).2 = st
      ∧ (cmd_st ((cmd_st st).2)).1 = (cmd_st st).1
      ∧ (cmd_st st).1 = _build_cmd st := by
  refine ⟨rfl, rfl, ?_⟩
  unfold cmd_st _build_cmd_st get_image_path_st _build_cmd
  rfl

end SingularitySpawnerModel
